import Mathlib

/-
Verification of the CSV/SQL handler (`src/csv_sql_handler.py`):
a shallow embedding of the `CSVSqlHandler` class and proofs about it.

Modelling conventions:
* Python strings are Lean `String`s; per-character work is done on `String.data`.
* `str.upper()` / `str.lower()` / `str.strip()` are modelled on their ASCII
  behaviour (`Char.toUpper`, `Char.toLower`, stripping the six ASCII
  whitespace characters Python strips), which is exact for the inputs the
  handler manipulates.
* Calls into external engines (DuckDB via `self.conn`, the Bedrock text
  generator) are modelled as oracle functions returning `Except String α`:
  `Except.error e` models the call raising an exception whose `str` is `e`.
* A `try/except` block becomes a `match` on such an `Except` value.
-/

namespace CsvSql

/-- The six characters stripped by Python `str.strip()` (ASCII). -/
def pyIsSpace (c : Char) : Bool :=
  c == ' ' || c == '\t' || c == '\n' || c == '\r' ||
    c == Char.ofNat 11 || c == Char.ofNat 12

/-- Python `str.strip()` on a character list: drop leading and trailing
whitespace. -/
def pyStrip (l : List Char) : List Char :=
  ((l.dropWhile pyIsSpace).reverse.dropWhile pyIsSpace).reverse

/-- `startsWithL needle hay`: does `hay` begin with `needle`?
(Python `str.startswith`.) -/
def startsWithL : List Char → List Char → Bool
  | [], _ => true
  | _ :: _, [] => false
  | a :: as, b :: bs => a == b && startsWithL as bs

/-- `endsWithL needle hay`: does `hay` end with `needle`?
(Python `str.endswith`.) -/
def endsWithL (needle hay : List Char) : Bool :=
  startsWithL needle.reverse hay.reverse

/-- `containsSub needle hay`: does `needle` occur as a contiguous substring
of `hay`? (Python `needle in hay`.) -/
def containsSub (needle : List Char) : List Char → Bool
  | [] => startsWithL needle []
  | c :: rest => startsWithL needle (c :: rest) || containsSub needle rest

/-- Python `needle in hay` on strings. -/
def strContains (hay needle : String) : Bool :=
  containsSub needle.data hay.data

/-- Python `str.upper()` (ASCII model). -/
def upperStr (s : String) : String :=
  ⟨s.data.map Char.toUpper⟩

/-- Python `str.lower()` (ASCII model). -/
def lowerStr (s : String) : String :=
  ⟨s.data.map Char.toLower⟩

/-! ## Safety Validator (`validate_sql`, src/csv_sql_handler.py lines 204-234) -/

/-- Model of `sqlparse.parse`'s statement count as used by `validate_sql`
(only its truthiness is consumed).  sqlparse's tokenizer emits at least one
token — hence the statement splitter yields at least one statement — exactly
when the input text is non-empty; `sqlparse.parse("")` is the empty tuple.
A whitespace-only input yields one (whitespace-token) statement. -/
def sqlparseStatementCount (s : String) : Nat :=
  if s.data.isEmpty then 0 else 1

/-- The deny-list of `validate_sql`, in source order. -/
def dangerousKeywords : List String :=
  ["DROP", "DELETE", "INSERT", "UPDATE", "ALTER", "CREATE", "TRUNCATE",
   "EXEC", "EXECUTE", "CALL", "GRANT", "REVOKE"]

/-- `validate_sql`, generic in the parse step and in the engine's plan-only
dry run.  `parse` models `sqlparse.parse` (returning the statement count, or
raising); `enginePlan` models `self.conn.execute("EXPLAIN " + sql)`.
The outer `try/except` of the Python source is the `.error` branch of
`parse`; the inner `try/except` around `EXPLAIN` is the `.error` branch of
`enginePlan`.  Returns the `(is_valid, error_message)` pair. -/
def validateSqlGen (parse : String → Except String Nat)
    (enginePlan : String → Except String Unit) (sqlQuery : String) :
    Bool × Option String :=
  match parse sqlQuery with
  | Except.error e => (false, some ("Validation error: " ++ e))
  | Except.ok nStatements =>
    if nStatements = 0 then
      (false, some ("Empty SQL query"))
    else
      let upperSql := upperStr sqlQuery
      match dangerousKeywords.find? (fun keyword => strContains upperSql keyword) with
      | some keyword => (false, some ("Dangerous operation detected: " ++ keyword))
      | none =>
        match enginePlan ("EXPLAIN " ++ sqlQuery) with
        | Except.ok _ => (true, none)
        | Except.error e => (false, some ("SQL syntax error: " ++ e))

/-- `validate_sql` with the concrete `sqlparse` model plugged in. -/
def validateSql (enginePlan : String → Except String Unit) (sqlQuery : String) :
    Bool × Option String :=
  validateSqlGen (fun s => Except.ok (sqlparseStatementCount s)) enginePlan sqlQuery

/-! ## Query Executor (`execute_sql`, lines 236-257) -/

/-- Observable engine submissions made by `execute_sql`:
`run sql` records `self.conn.execute(sql)` being reached. -/
inductive EngineEffect where
  | run (sql : String)
deriving DecidableEq

/-- `execute_sql`: validates, then (only if valid) submits the statement to
the engine.  `engineRun` models `self.conn.execute(sql).df()`, whose value is
the materialized dataframe of type `α`.  Returns the
`(success, dataframe, error_message)` triple together with the list of
engine submissions performed. -/
def executeSql {α : Type} (enginePlan : String → Except String Unit)
    (engineRun : String → Except String α) (sqlQuery : String) :
    (Bool × Option α × Option String) × List EngineEffect :=
  let v := validateSql enginePlan sqlQuery
  if v.1 then
    match engineRun sqlQuery with
    | Except.ok df => ((true, some df, none), [EngineEffect.run sqlQuery])
    | Except.error e =>
        ((false, none, some ("SQL execution failed: " ++ e)), [EngineEffect.run sqlQuery])
  else
    ((false, none, v.2), [])

/-! ## Connection Manager (`_connect_db`, lines 27-55) -/

/-- Observable events of `_connect_db`, in order of occurrence:
`attempt p` records a call `duckdb.connect(p)` (which creates the file at
`p` if absent); `sleepMs n` records `time.sleep` of `n` milliseconds;
the log events mirror the `info`/`warn`/`error` calls. -/
inductive ConnectEvent where
  | attempt (path : String)
  | sleepMs (ms : Nat)
  | infoLog (msg : String)
  | warnLog (msg : String)
  | errorLog (msg : String)
deriving DecidableEq

/-- Final state of `_connect_db`: either connected with the final value of
`self.db_path`, or an exception propagated out of the method. -/
inductive ConnectOutcome where
  | connected (dbPath : String)
  | raised (err : String)
deriving DecidableEq

/-- The lock-contention signature test of `_connect_db`:
`"lock on file" in error_msg.lower() or "conflicting lock" in error_msg.lower()`. -/
def isLockError (errorMsg : String) : Bool :=
  strContains (lowerStr errorMsg) ("lock on file") ||
    strContains (lowerStr errorMsg) ("conflicting lock")

/-- `os.path.join(dir, name)` for a relative `name`. -/
def pathJoin (dir name : String) : String :=
  dir ++ "/" ++ name

/-- The primary store path: `os.path.join(workspace_dir, "workspace.duckdb")`. -/
def primaryDbPath (workspaceDir : String) : String :=
  pathJoin workspaceDir ("workspace.duckdb")

/-- The fallback store path:
`os.path.join(workspace_dir, f"workspace_{os.getpid()}.duckdb")`. -/
def pidDbPath (workspaceDir : String) (pid : Nat) : String :=
  pathJoin workspaceDir ("workspace_" ++ toString pid ++ ".duckdb")

/-- The retry loop `for attempt in range(1, 6)` of `_connect_db`, run over the
list of attempt numbers.  `env` gives the outcome of the n-th `duckdb.connect`
call of the method (the initial call is number 0, so retry `attempt` is call
number `attempt`).  Each iteration sleeps `0.5 * attempt` seconds
(`500 * attempt` ms) and retries the primary path; on the 5th failure it warns
and breaks.  Returns whether a retry connected, plus the events. -/
def retryLoop (env : Nat → Except String Unit) (dbPath : String) :
    List Nat → Bool × List ConnectEvent
  | [] => (false, [])
  | attempt :: rest =>
    let pre := [ConnectEvent.sleepMs (500 * attempt), ConnectEvent.attempt dbPath]
    match env attempt with
    | Except.ok _ =>
        (true, pre ++ [ConnectEvent.infoLog ("Connected to DuckDB after retry")])
    | Except.error retryErr =>
        if attempt = 5 then
          (false, pre ++
            [ConnectEvent.warnLog ("DuckDB lock persists after retries: " ++ retryErr)])
        else
          let r := retryLoop env dbPath rest
          (r.1, pre ++ r.2)

/-- The fallback block of `_connect_db` (its last `try/except`): connect to
the per-process fallback path; on success the handler continues against it
with a warning, on failure the exception propagates (`raise`).  `callIdx` is
the sequence number of this `duckdb.connect` call in `env`. -/
def fallbackConnect (env : Nat → Except String Unit) (callIdx : Nat)
    (workspaceDir : String) (pid : Nat) (pre : List ConnectEvent) :
    ConnectOutcome × List ConnectEvent :=
  let fb := pidDbPath workspaceDir pid
  match env callIdx with
  | Except.ok _ =>
      (ConnectOutcome.connected fb,
       pre ++ [ConnectEvent.attempt fb,
               ConnectEvent.warnLog ("Using fallback DuckDB path due to lock: " ++ fb)])
  | Except.error finalErr =>
      (ConnectOutcome.raised finalErr,
       pre ++ [ConnectEvent.attempt fb,
               ConnectEvent.errorLog ("Failed to connect to fallback DuckDB: " ++ finalErr)])

/-- `_connect_db`.  `env n` is the outcome of the n-th `duckdb.connect` call
made by the method.  Note the fallback block sits at the `except` level of the
source, outside the lock-signature conditional: it runs for any initial
failure once no retry has connected (for a non-lock failure the retry loop is
skipped, so the fallback `connect` is then call number 1; after a full lock
retry round it is call number 6). -/
def connectDb (env : Nat → Except String Unit) (workspaceDir : String)
    (pid : Nat) : ConnectOutcome × List ConnectEvent :=
  let dbPath := primaryDbPath workspaceDir
  match env 0 with
  | Except.ok _ =>
      (ConnectOutcome.connected dbPath,
       [ConnectEvent.attempt dbPath, ConnectEvent.infoLog ("Connected to DuckDB")])
  | Except.error e =>
    let pre := [ConnectEvent.attempt dbPath,
                ConnectEvent.errorLog ("Failed to connect to DuckDB: " ++ e)]
    let retry :=
      if isLockError e then retryLoop env dbPath [1, 2, 3, 4, 5] else (false, [])
    if retry.1 then
      (ConnectOutcome.connected dbPath, pre ++ retry.2)
    else
      fallbackConnect env (if isLockError e then 6 else 1) workspaceDir pid
        (pre ++ retry.2)

/-! ## Schema Catalog (`get_table_info` lines 106-123, `get_all_tables` lines 125-140) -/

/-- One element of the `columns` list produced by `get_table_info`. -/
structure ColumnInfo where
  name : String
  type : String
deriving DecidableEq

/-- The `{row_count, columns}` dictionary returned by `get_table_info`. -/
structure TableInfo where
  row_count : Nat
  columns : List ColumnInfo
deriving DecidableEq

/-- `get_table_info`.  `rowCountQ t` models
`conn.execute(f"SELECT COUNT(*) as count FROM {t}").fetchone()` (`none` models
`fetchone` returning `None`, in which case the count defaults to 0);
`describeQ t` models `conn.execute(f"DESCRIBE {t}").fetchall()` as
(name, type) rows.  Both statements sit in one `try`: any failure yields the
zero-row/empty-column result instead of raising. -/
def getTableInfo (rowCountQ : String → Except String (Option Nat))
    (describeQ : String → Except String (List (String × String)))
    (tableName : String) : TableInfo :=
  match rowCountQ tableName with
  | Except.error _ => { row_count := 0, columns := [] }
  | Except.ok result =>
    let rowCount := result.getD 0
    match describeQ tableName with
    | Except.error _ => { row_count := 0, columns := [] }
    | Except.ok rows =>
        { row_count := rowCount,
          columns := rows.map (fun row => { name := row.1, type := row.2 }) }

/-- `get_all_tables`.  `showTablesQ` models
`conn.execute("SHOW TABLES").fetchall()` (first column = table name); each
listed table is described with `get_table_info` (which never raises), so the
only failure caught by the method's `try` is the listing itself, yielding `[]`. -/
def getAllTables (showTablesQ : Except String (List String))
    (rowCountQ : String → Except String (Option Nat))
    (describeQ : String → Except String (List (String × String))) :
    List (String × TableInfo) :=
  match showTablesQ with
  | Except.error _ => []
  | Except.ok names =>
      names.map (fun t => (t, getTableInfo rowCountQ describeQ t))

/-! ## Table Loader (`load_csv_files`, lines 63-104) -/

/-- A character kept unchanged by the sanitization regex `[^a-zA-Z0-9_]`. -/
def isWordChar (c : Char) : Bool :=
  ('a' ≤ c && c ≤ 'z') || ('A' ≤ c && c ≤ 'Z') || ('0' ≤ c && c ≤ '9') || c == '_'

/-- One step of `re.sub(r'[^a-zA-Z0-9_]', '_', ...)`. -/
def sanitizeChar (c : Char) : Char :=
  if isWordChar c then c else '_'

/-- `str.isdigit()` on the (already sanitized, hence ASCII) leading character. -/
def isAsciiDigit (c : Char) : Bool :=
  '0' ≤ c && c ≤ '9'

/-- Table-identifier sanitization (lines 76-78): replace every character
outside letters/digits/underscore with underscore; if the result is empty or
starts with a digit, prefix it with `table_`. -/
def sanitizeTableNameL (l : List Char) : List Char :=
  match l.map sanitizeChar with
  | [] => ("table_").data
  | c :: cs =>
      if isAsciiDigit c then ("table_").data ++ (c :: cs) else c :: cs

/-- Table-identifier sanitization on strings. -/
def sanitizeTable (s : String) : String :=
  ⟨sanitizeTableNameL s.data⟩

/-- `os.path.basename` (POSIX): the part after the last slash. -/
def baseNameL (l : List Char) : List Char :=
  (l.reverse.takeWhile (fun c => c != '/')).reverse

/-- The stem of `os.path.splitext`: cut at the last dot, except when every
character before that dot (within the basename) is itself a dot, in which
case there is no extension.  The input here is already a basename. -/
def splitextStemL (b : List Char) : List Char :=
  match b.reverse.findIdx? (fun c => c == '.') with
  | none => b
  | some j =>
    let d := b.length - 1 - j
    if (b.take d).any (fun c => c != '.') then b.take d else b

/-- The table name derived from a CSV path (lines 74-78):
`os.path.splitext(os.path.basename(csv_file))[0]`, then sanitized. -/
def tableNameOf (csvFile : String) : String :=
  sanitizeTable ⟨splitextStemL (baseNameL csvFile.data)⟩

/-- One element of the `loaded_tables` list of `load_csv_files`. -/
structure LoadedTable where
  table_name : String
  file_path : String
  row_count : Nat
  columns : List ColumnInfo
deriving DecidableEq

/-- The dictionary returned by `load_csv_files`. -/
structure LoadResult where
  loaded_tables : List LoadedTable
  errors : List String
  success_count : Nat
  error_count : Nat
deriving DecidableEq

/-- The body of one iteration of the `load_csv_files` loop.  `createQ t f`
models `conn.execute(f"CREATE OR REPLACE TABLE {t} AS SELECT * FROM
read_csv_auto(?)", [f])`, the only statement in the per-file `try` that can
raise (`get_table_info` catches its own errors). -/
def loadOne (createQ : String → String → Except String Unit)
    (rowCountQ : String → Except String (Option Nat))
    (describeQ : String → Except String (List (String × String)))
    (csvFile : String) : Except String LoadedTable :=
  let tn := tableNameOf csvFile
  match createQ tn csvFile with
  | Except.error e => Except.error e
  | Except.ok _ =>
    let info := getTableInfo rowCountQ describeQ tn
    Except.ok { table_name := tn, file_path := csvFile,
                row_count := info.row_count, columns := info.columns }

/-- The accumulation loop of `load_csv_files`: per file, append either a
loaded-table entry or a `Failed to load …` error string, and continue. -/
def loadCsvAux (createQ : String → String → Except String Unit)
    (rowCountQ : String → Except String (Option Nat))
    (describeQ : String → Except String (List (String × String))) :
    List String → List LoadedTable × List String
  | [] => ([], [])
  | f :: fs =>
    let rest := loadCsvAux createQ rowCountQ describeQ fs
    match loadOne createQ rowCountQ describeQ f with
    | Except.ok entry => (entry :: rest.1, rest.2)
    | Except.error e => (rest.1, ("Failed to load " ++ f ++ ": " ++ e) :: rest.2)

/-- `load_csv_files`. -/
def loadCsvFiles (createQ : String → String → Except String Unit)
    (rowCountQ : String → Except String (Option Nat))
    (describeQ : String → Except String (List (String × String)))
    (csvFiles : List String) : LoadResult :=
  let r := loadCsvAux createQ rowCountQ describeQ csvFiles
  { loaded_tables := r.1, errors := r.2,
    success_count := r.1.length, error_count := r.2.length }

/-! ## SQL Extractor (`natural_language_to_sql`, lines 189-195) -/

/-- The response clean-up of `natural_language_to_sql`: strip, drop a leading
<three backticks>sql fence, drop a trailing three-backtick fence, strip again. -/
def extractSqlL (l : List Char) : List Char :=
  let t1 := pyStrip l
  let t2 := if startsWithL ("```sql").data t1 then t1.drop 6 else t1
  let t3 := if endsWithL ("```").data t2 then t2.take (t2.length - 3) else t2
  pyStrip t3

/-- The response clean-up on strings. -/
def extractSql (s : String) : String :=
  ⟨extractSqlL s.data⟩

/-- The SQL Extractor as the specification words it (spec §4.5): trim
surrounding whitespace; if the text begins with the fenced-code opening
marker for the query language, strip that marker; if it ends with a
fence-closing marker, strip it; trim again.  Stated with the library's
prefix/suffix tests, to be compared with the source-derived `extractSqlL`. -/
def specExtractL (l : List Char) : List Char :=
  let trimmed := pyStrip l
  let noOpen :=
    if List.isPrefixOf (("```sql").data) trimmed then trimmed.drop 6 else trimmed
  let noClose :=
    if List.isSuffixOf (("```").data) noOpen then noOpen.take (noOpen.length - 3)
    else noOpen
  pyStrip noClose

/-- The spec-worded extractor on strings. -/
def specExtract (s : String) : String :=
  ⟨specExtractL s.data⟩

/-! ## Concrete oracles used to instantiate the theorems -/

/-- An engine whose plan-only dry run accepts every statement. -/
def planAcceptAll : String → Except String Unit :=
  fun _ => Except.ok ()

/-- An engine whose plan-only dry run raises on every statement. -/
def planRejectAll : String → Except String Unit :=
  fun _ => Except.error ("Parser Error: syntax error at end of input")

/-- An engine that executes every statement to a one-value dataframe. -/
def runOk7 : String → Except String Nat :=
  fun _ => Except.ok 7

/-- A parse step that raises on every input. -/
def parseBoom : String → Except String Nat :=
  fun _ => Except.error ("tokenizer crashed")

/-- A connect environment whose initial open fails with a non-lock error and
whose later opens succeed. -/
def envDiskFull : Nat → Except String Unit :=
  fun n => if n = 0 then Except.error ("IO Error: disk full") else Except.ok ()

/-- A connect environment under persistent lock contention: the initial open
and all five retries fail with lock signatures; the fallback open succeeds. -/
def envLocked : Nat → Except String Unit :=
  fun n =>
    if n = 0 then Except.error ("could not set lock on file db")
    else if n ≤ 5 then Except.error ("conflicting lock is held")
    else Except.ok ()

/-- A row-count oracle for a vanished table: every query raises. -/
def rcGone : String → Except String (Option Nat) :=
  fun _ => Except.error ("table vanished")

/-- A describe oracle returning no columns. -/
def descEmpty : String → Except String (List (String × String)) :=
  fun _ => Except.ok []

/-! ## Helper lemmas -/

/-- `String.data` distributes over append. -/
theorem data_append (a b : String) : (a ++ b).data = a.data ++ b.data := by
  cases a
  cases b
  rfl

/-- A list starts with itself followed by anything. -/
theorem startsWithL_self_append (n r : List Char) : startsWithL n (n ++ r) = true := by
  induction n with
  | nil => rfl
  | cons a as ih => simp [startsWithL, ih]

/-- A prefix occurrence is an occurrence. -/
theorem containsSub_of_startsWithL {n h : List Char} (hp : startsWithL n h = true) :
    containsSub n h = true := by
  cases h with
  | nil => simpa [containsSub] using hp
  | cons c rest => simp [containsSub, hp]

/-- An occurrence survives prepending. -/
theorem containsSub_append_left {n b : List Char} (a : List Char)
    (hc : containsSub n b = true) : containsSub n (a ++ b) = true := by
  induction a with
  | nil => simpa using hc
  | cons x xs ih => simp [containsSub, ih]

/-- The fallback path contains the process identifier as a substring. -/
theorem pid_in_pidDbPath (ws : String) (pid : Nat) :
    strContains (pidDbPath ws pid) (toString pid) = true := by
  show containsSub (toString pid).data (pidDbPath ws pid).data = true
  have hdata : (pidDbPath ws pid).data =
      ws.data ++ (("/").data ++ (("workspace_").data ++
        ((toString pid).data ++ (".duckdb").data))) := by
    simp [pidDbPath, pathJoin, data_append]
  rw [hdata]
  apply containsSub_append_left
  apply containsSub_append_left
  apply containsSub_append_left
  exact containsSub_of_startsWithL (startsWithL_self_append _ _)

/-- Sanitizing a character twice is the same as sanitizing it once. -/
theorem sanitizeChar_idem (c : Char) : sanitizeChar (sanitizeChar c) = sanitizeChar c := by
  by_cases h : isWordChar c = true
  · simp [sanitizeChar, h]
  · have hb : isWordChar c = false := by simpa using h
    simp [sanitizeChar, hb]

/-- Mapping the character sanitizer twice is the same as mapping it once. -/
theorem map_sanitizeChar_idem (l : List Char) :
    (l.map sanitizeChar).map sanitizeChar = l.map sanitizeChar := by
  induction l with
  | nil => rfl
  | cons c cs ih => simp [sanitizeChar_idem c, ih]

/-- A non-empty, non-digit-led fixed point of the character sanitizer is a
fixed point of the whole sanitization. -/
theorem sanitizeTableNameL_of_fixed {c : Char} {cs : List Char}
    (hmap : (c :: cs).map sanitizeChar = c :: cs) (hd : isAsciiDigit c = false) :
    sanitizeTableNameL (c :: cs) = c :: cs := by
  unfold sanitizeTableNameL
  rw [hmap]
  simp [hd]

/-- Prepending the `table_` prefix to a fixed point of the character
sanitizer yields a fixed point of the whole sanitization. -/
theorem sanitizeTableNameL_table_append (m : List Char)
    (hmap : m.map sanitizeChar = m) :
    sanitizeTableNameL (("table_").data ++ m) = ("table_").data ++ m := by
  have hsplit : ("table_").data ++ m = 't' :: ((("able_").data ++ m)) := rfl
  rw [hsplit]
  apply sanitizeTableNameL_of_fixed
  · show ('t' :: (("able_").data ++ m)).map sanitizeChar = _
    rw [List.map_cons, List.map_append, hmap]
    have h1 : sanitizeChar 't' = 't' := by decide
    have h2 : (("able_").data).map sanitizeChar = ("able_").data := by decide
    rw [h1, h2]
  · decide

/-- List-level idempotence of table-identifier sanitization. -/
theorem sanitizeTableNameL_idem (l : List Char) :
    sanitizeTableNameL (sanitizeTableNameL l) = sanitizeTableNameL l := by
  cases hm : l.map sanitizeChar with
  | nil =>
      have h1 : sanitizeTableNameL l = ("table_").data := by
        unfold sanitizeTableNameL
        rw [hm]
      rw [h1]
      decide
  | cons c cs =>
      have hmap : (c :: cs).map sanitizeChar = c :: cs := by
        rw [← hm, map_sanitizeChar_idem]
      by_cases hd : isAsciiDigit c = true
      · have h1 : sanitizeTableNameL l = ("table_").data ++ (c :: cs) := by
          unfold sanitizeTableNameL
          rw [hm]
          simp [hd]
        rw [h1]
        exact sanitizeTableNameL_table_append (c :: cs) hmap
      · have hdf : isAsciiDigit c = false := by simpa using hd
        have h1 : sanitizeTableNameL l = c :: cs := by
          unfold sanitizeTableNameL
          rw [hm]
          simp [hdf]
        rw [h1]
        exact sanitizeTableNameL_of_fixed hmap hdf

/-- The hand-rolled prefix test agrees with the library's. -/
theorem startsWithL_eq_isPrefixOf (n : List Char) :
    ∀ l, startsWithL n l = List.isPrefixOf n l := by
  induction n with
  | nil => intro l; cases l <;> rfl
  | cons a as ih =>
      intro l
      cases l with
      | nil => rfl
      | cons b bs => simp [startsWithL, List.isPrefixOf, ih]

/-- The hand-rolled suffix test agrees with the library's. -/
theorem endsWithL_eq_isSuffixOf (n l : List Char) :
    endsWithL n l = List.isSuffixOf n l := by
  simp [endsWithL, List.isSuffixOf, startsWithL_eq_isPrefixOf]

/-- ASCII upper-casing fixes whitespace characters. -/
theorem toUpper_eq_of_space {c : Char} (h : pyIsSpace c = true) :
    Char.toUpper c = c := by
  simp only [pyIsSpace, Bool.or_eq_true, beq_iff_eq] at h
  rcases h with ((((h | h) | h) | h) | h) | h <;> subst h <;> decide

/-- A needle with a non-whitespace character never prefixes an all-whitespace
haystack. -/
theorem startsWithL_all_space {needle : List Char} :
    ∀ {hay : List Char}, (∀ c ∈ hay, pyIsSpace c = true) →
      (∃ c ∈ needle, pyIsSpace c = false) →
      startsWithL needle hay = false := by
  induction needle with
  | nil =>
      intro hay _ hx
      simp at hx
  | cons a as ih =>
      intro hay hws hx
      cases hay with
      | nil => rfl
      | cons b bs =>
          have hb : pyIsSpace b = true := hws b (by simp)
          rcases hx with ⟨c, hc, hcs⟩
          rcases List.mem_cons.mp hc with rfl | hc'
          · have hne : (c == b) = false := by
              apply beq_eq_false_iff_ne.mpr
              intro he
              rw [he, hb] at hcs
              simp at hcs
            simp [startsWithL, hne]
          · have htail : startsWithL as bs = false :=
              ih (fun c hc => hws c (by simp [hc])) ⟨c, hc', hcs⟩
            simp [startsWithL, htail]

/-- A needle with a non-whitespace character never occurs in an
all-whitespace haystack. -/
theorem containsSub_all_space {needle : List Char} :
    ∀ {hay : List Char}, (∀ c ∈ hay, pyIsSpace c = true) →
      (∃ c ∈ needle, pyIsSpace c = false) →
      containsSub needle hay = false := by
  intro hay
  induction hay with
  | nil =>
      intro _ hx
      rcases hx with ⟨c, hc, hcs⟩
      cases needle with
      | nil => simp at hc
      | cons a as => rfl
  | cons b bs ih =>
      intro hws hx
      have h1 : startsWithL needle (b :: bs) = false := startsWithL_all_space hws hx
      have h2 : containsSub needle bs = false :=
        ih (fun c hc => hws c (by simp [hc])) hx
      simp [containsSub, h1, h2]

/-- On an all-whitespace SQL string, no deny-listed keyword matches. -/
theorem find?_dangerous_none_of_space {sql : String}
    (hws : ∀ c ∈ sql.data, pyIsSpace c = true) :
    dangerousKeywords.find? (fun keyword => strContains (upperStr sql) keyword) = none := by
  apply List.find?_eq_none.mpr
  intro kw hkw
  have hws' : ∀ c ∈ (upperStr sql).data, pyIsSpace c = true := by
    intro c hc
    simp only [upperStr, List.mem_map] at hc
    obtain ⟨a, ha, rfl⟩ := hc
    rw [toUpper_eq_of_space (hws a ha)]
    exact hws a ha
  fin_cases hkw <;>
    simp only [strContains, Bool.not_eq_true] <;>
    exact containsSub_all_space hws' (by decide)

/-- Characterization of the `load_csv_files` accumulation loop: each input
file contributes exactly one outcome, in order. -/
theorem loadCsvAux_spec (createQ : String → String → Except String Unit)
    (rowCountQ : String → Except String (Option Nat))
    (describeQ : String → Except String (List (String × String))) :
    ∀ files : List String,
      loadCsvAux createQ rowCountQ describeQ files =
        (files.filterMap (fun f => (loadOne createQ rowCountQ describeQ f).toOption),
         files.filterMap (fun f =>
           match loadOne createQ rowCountQ describeQ f with
           | Except.ok _ => none
           | Except.error e => some ("Failed to load " ++ f ++ ": " ++ e))) := by
  intro files
  induction files with
  | nil => rfl
  | cons f fs ih =>
      simp only [loadCsvAux, ih, List.filterMap_cons]
      cases h : loadOne createQ rowCountQ describeQ f <;>
        simp [h, Except.toOption]

/-- The two outcome lists of the loader account for every input file. -/
theorem loadCsvAux_length (createQ : String → String → Except String Unit)
    (rowCountQ : String → Except String (Option Nat))
    (describeQ : String → Except String (List (String × String))) :
    ∀ files : List String,
      (loadCsvAux createQ rowCountQ describeQ files).1.length +
        (loadCsvAux createQ rowCountQ describeQ files).2.length = files.length := by
  intro files
  induction files with
  | nil => rfl
  | cons f fs ih =>
      simp only [loadCsvAux]
      cases h : loadOne createQ rowCountQ describeQ f <;>
        simp [h] <;> omega

/-- `upperStr` unfolds to a character map. -/
theorem upperStr_data (s : String) : (upperStr s).data = s.data.map Char.toUpper :=
  rfl

/-! ## Claims -/

/-- Claim C1, counterexample: the input text contains the deny-listed keyword
EXECUTE, yet `validate_sql` identifies EXEC (the earlier entry of the fixed
list, which EXECUTE contains as a substring), not EXECUTE. -/
theorem claim1_counterexample :
    ("EXECUTE") ∈ dangerousKeywords ∧
    strContains (upperStr ("EXECUTE my_proc")) ("EXECUTE") = true ∧
    validateSql planAcceptAll ("EXECUTE my_proc") ≠
      (false, some ("Dangerous operation detected: EXECUTE")) ∧
    validateSql planAcceptAll ("EXECUTE my_proc") =
      (false, some ("Dangerous operation detected: EXEC")) := by
  decide

/-- Claim C1 (amended): for every SQL string containing a deny-listed keyword
as a case-insensitive substring anywhere in the text, `validate_sql` returns
invalid identifying the first deny-listed keyword in the fixed list order
that occurs in the text — a keyword that itself occurs in the text, though
possibly not the given one. -/
theorem claim1_amended (enginePlan : String → Except String Unit)
    (sqlQuery kw : String) (hkw : kw ∈ dangerousKeywords)
    (hcontains : strContains (upperStr sqlQuery) kw = true) :
    ∃ kwFirst,
      dangerousKeywords.find? (fun keyword => strContains (upperStr sqlQuery) keyword) =
        some kwFirst ∧
      kwFirst ∈ dangerousKeywords ∧
      strContains (upperStr sqlQuery) kwFirst = true ∧
      validateSql enginePlan sqlQuery =
        (false, some ("Dangerous operation detected: " ++ kwFirst)) := by
  obtain ⟨c, cs, hkwdata⟩ : ∃ c cs, kw.data = c :: cs := by
    fin_cases hkw <;> exact ⟨_, _, rfl⟩
  obtain ⟨a, l, hd⟩ : ∃ a l, sqlQuery.data = a :: l := by
    cases hq : sqlQuery.data with
    | nil =>
        exfalso
        have hf : strContains (upperStr sqlQuery) kw = false := by
          rw [strContains, upperStr_data, hkwdata, hq]
          rfl
        rw [hf] at hcontains
        exact Bool.noConfusion hcontains
    | cons a l => exact ⟨a, l, rfl⟩
  cases hfind : dangerousKeywords.find? (fun keyword => strContains (upperStr sqlQuery) keyword) with
  | none =>
      exfalso
      have := List.find?_eq_none.mp hfind kw hkw
      simp [hcontains] at this
  | some kwFirst =>
      refine ⟨kwFirst, rfl, List.mem_of_find?_eq_some hfind, ?_, ?_⟩
      · simpa using List.find?_some hfind
      · simp [validateSql, validateSqlGen, sqlparseStatementCount, hd, hfind]

/-- Witness for the amended claim C1, at a lower-case occurrence inside an
identifier (`created_at` contains `create`). -/
theorem claim1_witness :
    strContains (upperStr ("select * from created_at")) ("CREATE") = true ∧
    validateSql planAcceptAll ("select * from created_at") =
      (false, some ("Dangerous operation detected: CREATE")) := by
  refine ⟨by decide, ?_⟩
  obtain ⟨kwFirst, hfind, _, _, hval⟩ :=
    claim1_amended planAcceptAll ("select * from created_at") ("CREATE")
      (by decide) (by decide)
  have hconc : dangerousKeywords.find?
      (fun keyword => strContains (upperStr ("select * from created_at")) keyword) =
      some ("CREATE") := by decide
  have : kwFirst = ("CREATE") := by
    have := hfind.symm.trans hconc
    exact Option.some.inj this
  rw [this] at hval
  exact hval

/-- Claim C2 (confirmed): `execute_sql` re-runs `validate_sql` in the same
call; when validation is invalid it returns a failure carrying the validation
reason and makes no engine submission, and a statement is submitted to the
engine only if that same-call validation returned valid. -/
theorem claim2_executor_revalidates (α : Type)
    (enginePlan : String → Except String Unit)
    (engineRun : String → Except String α) (sqlQuery : String) :
    ((validateSql enginePlan sqlQuery).1 = false →
      executeSql enginePlan engineRun sqlQuery =
        ((false, none, (validateSql enginePlan sqlQuery).2), [])) ∧
    (∀ q, EngineEffect.run q ∈ (executeSql enginePlan engineRun sqlQuery).2 →
      q = sqlQuery ∧ (validateSql enginePlan sqlQuery).1 = true) := by
  constructor
  · intro h
    simp [executeSql, h]
  · intro q hq
    by_cases hv : (validateSql enginePlan sqlQuery).1 = true
    · refine ⟨?_, hv⟩
      cases hr : engineRun sqlQuery <;>
        · simp [executeSql, hv, hr] at hq
          exact hq
    · have hvf : (validateSql enginePlan sqlQuery).1 = false := by
        simpa using hv
      simp [executeSql, hvf] at hq

/-- Witness for claim C2: with a rejecting dry run, the executor fails with
the validation reason and the engine receives nothing. -/
theorem claim2_witness :
    executeSql planRejectAll runOk7 ("SELECT 1") =
      ((false, none,
        some ("SQL syntax error: Parser Error: syntax error at end of input")), []) := by
  have h := (claim2_executor_revalidates Nat planRejectAll runOk7 ("SELECT 1")).1 (by decide)
  have h2 : (validateSql planRejectAll ("SELECT 1")).2 =
      some ("SQL syntax error: Parser Error: syntax error at end of input") := by decide
  rw [h, h2]

/-- Claim C3, counterexample: the whitespace-only string of one space is not
rejected with the empty-query reason; it reaches the dry run and is reported
as a syntax error. -/
theorem claim3_counterexample :
    validateSql planRejectAll (" ") =
      (false, some ("SQL syntax error: Parser Error: syntax error at end of input")) ∧
    ¬(validateSql planRejectAll (" ")).2 = some ("Empty SQL query") := by
  decide

/-- Claim C3 (amended): only the exactly-empty SQL string is rejected by the
parseability check with the empty-query reason; a whitespace-only non-empty
string tokenizes into one statement, passes the deny-list scan, and is
decided by the plan-only dry run. -/
theorem claim3_amended (enginePlan : String → Except String Unit) :
    validateSql enginePlan ("") = (false, some ("Empty SQL query")) ∧
    ∀ sqlQuery : String, ¬sqlQuery.data = [] →
      (∀ c ∈ sqlQuery.data, pyIsSpace c = true) →
      validateSql enginePlan sqlQuery =
        (match enginePlan ("EXPLAIN " ++ sqlQuery) with
         | Except.ok _ => (true, none)
         | Except.error e => (false, some ("SQL syntax error: " ++ e))) := by
  constructor
  · rfl
  · intro sqlQuery hne hws
    obtain ⟨a, l, hd⟩ : ∃ a l, sqlQuery.data = a :: l := by
      cases hq : sqlQuery.data with
      | nil => exact absurd hq hne
      | cons a l => exact ⟨a, l, rfl⟩
    have hfind := find?_dangerous_none_of_space hws
    simp [validateSql, validateSqlGen, sqlparseStatementCount, hd, hfind]

/-- Witness for the amended claim C3: the empty string is reported empty,
while a whitespace-only string under an accepting dry run validates. -/
theorem claim3_witness :
    validateSql planAcceptAll ("") = (false, some ("Empty SQL query")) ∧
    validateSql planAcceptAll ("\t\n ") = (true, none) := by
  refine ⟨(claim3_amended planAcceptAll).1, ?_⟩
  have h := (claim3_amended planAcceptAll).2 ("\t\n ") (by decide) (by decide)
  simpa [planAcceptAll] using h

/-- Claim C4 (code bug): an initial open failure with a non-lock signature
does not propagate immediately — the handler still attempts (and here
succeeds on) the per-process fallback store, continuing with only a warning.
The fallback block of `_connect_db` sits outside the lock-signature
conditional, contradicting the comment above it and its own
`due to lock` warning text. -/
theorem claim4_nonlock_fallback_eval :
    isLockError ("IO Error: disk full") = false ∧
    connectDb envDiskFull ("csv_workspace") 4242 =
      (ConnectOutcome.connected (pidDbPath ("csv_workspace") 4242),
       [ConnectEvent.attempt (primaryDbPath ("csv_workspace")),
        ConnectEvent.errorLog ("Failed to connect to DuckDB: IO Error: disk full"),
        ConnectEvent.attempt (pidDbPath ("csv_workspace") 4242),
        ConnectEvent.warnLog ("Using fallback DuckDB path due to lock: " ++
          pidDbPath ("csv_workspace") 4242)]) ∧
    ConnectEvent.attempt (pidDbPath ("csv_workspace") 4242) ∈
      (connectDb envDiskFull ("csv_workspace") 4242).2 := by
  decide

/-- Claim C5 (confirmed): under lock contention the handler retries the
primary path five times with linearly increasing backoff (500 ms × attempt),
then opens the fallback store at the pid-derived path and continues with a
warning rather than an error; the fallback path contains the pid. -/
theorem claim5_lock_retry_fallback
    (env : Nat → Except String Unit) (workspaceDir : String) (pid : Nat)
    (e0 e1 e2 e3 e4 e5 : String)
    (h0 : env 0 = Except.error e0) (hlock : isLockError e0 = true)
    (h1 : env 1 = Except.error e1) (h2 : env 2 = Except.error e2)
    (h3 : env 3 = Except.error e3) (h4 : env 4 = Except.error e4)
    (h5 : env 5 = Except.error e5) (h6 : env 6 = Except.ok ()) :
    connectDb env workspaceDir pid =
      (ConnectOutcome.connected (pidDbPath workspaceDir pid),
       [ConnectEvent.attempt (primaryDbPath workspaceDir),
        ConnectEvent.errorLog ("Failed to connect to DuckDB: " ++ e0),
        ConnectEvent.sleepMs 500, ConnectEvent.attempt (primaryDbPath workspaceDir),
        ConnectEvent.sleepMs 1000, ConnectEvent.attempt (primaryDbPath workspaceDir),
        ConnectEvent.sleepMs 1500, ConnectEvent.attempt (primaryDbPath workspaceDir),
        ConnectEvent.sleepMs 2000, ConnectEvent.attempt (primaryDbPath workspaceDir),
        ConnectEvent.sleepMs 2500, ConnectEvent.attempt (primaryDbPath workspaceDir),
        ConnectEvent.warnLog ("DuckDB lock persists after retries: " ++ e5),
        ConnectEvent.attempt (pidDbPath workspaceDir pid),
        ConnectEvent.warnLog ("Using fallback DuckDB path due to lock: " ++
          pidDbPath workspaceDir pid)]) ∧
    strContains (pidDbPath workspaceDir pid) (toString pid) = true := by
  refine ⟨?_, pid_in_pidDbPath workspaceDir pid⟩
  simp [connectDb, retryLoop, fallbackConnect, h0, hlock, h1, h2, h3, h4, h5, h6]

/-- Witness for claim C5 under a concrete persistently-locked environment. -/
theorem claim5_witness :
    connectDb envLocked ("csv_workspace") 31337 =
      (ConnectOutcome.connected (pidDbPath ("csv_workspace") 31337),
       [ConnectEvent.attempt (primaryDbPath ("csv_workspace")),
        ConnectEvent.errorLog ("Failed to connect to DuckDB: could not set lock on file db"),
        ConnectEvent.sleepMs 500, ConnectEvent.attempt (primaryDbPath ("csv_workspace")),
        ConnectEvent.sleepMs 1000, ConnectEvent.attempt (primaryDbPath ("csv_workspace")),
        ConnectEvent.sleepMs 1500, ConnectEvent.attempt (primaryDbPath ("csv_workspace")),
        ConnectEvent.sleepMs 2000, ConnectEvent.attempt (primaryDbPath ("csv_workspace")),
        ConnectEvent.sleepMs 2500, ConnectEvent.attempt (primaryDbPath ("csv_workspace")),
        ConnectEvent.warnLog ("DuckDB lock persists after retries: conflicting lock is held"),
        ConnectEvent.attempt (pidDbPath ("csv_workspace") 31337),
        ConnectEvent.warnLog ("Using fallback DuckDB path due to lock: " ++
          pidDbPath ("csv_workspace") 31337)]) := by
  exact (claim5_lock_retry_fallback envLocked ("csv_workspace") 31337
    ("could not set lock on file db") ("conflicting lock is held")
    ("conflicting lock is held") ("conflicting lock is held")
    ("conflicting lock is held") ("conflicting lock is held")
    rfl (by decide) rfl rfl rfl rfl rfl rfl).1

/-- Claim C6 (confirmed): the extraction step trims surrounding whitespace,
strips a leading sql fence marker when present, strips a trailing fence
marker when present, and trims again — it coincides with the spec-worded
extractor on every input, and the scenario text yields the bare statement. -/
theorem claim6_extractor_normalizes :
    (∀ s : String, extractSql s = specExtract s) ∧
    extractSql ("```sql\nSELECT * FROM sales LIMIT 10;\n```") =
      ("SELECT * FROM sales LIMIT 10;") := by
  constructor
  · intro s
    simp only [extractSql, specExtract, extractSqlL, specExtractL,
      startsWithL_eq_isPrefixOf, endsWithL_eq_isSuffixOf]
  · decide

/-- Claim C7 (confirmed): table-identifier sanitization is idempotent. -/
theorem claim7_sanitize_idempotent (s : String) :
    sanitizeTable (sanitizeTable s) = sanitizeTable s := by
  unfold sanitizeTable
  exact congrArg String.mk (sanitizeTableNameL_idem s.data)

/-- Claim C8 (confirmed): any failing introspection step degrades
`get_table_info` to a zero-row, empty-column result instead of raising, and
every listed table still receives a catalog entry in `get_all_tables`. -/
theorem claim8_introspection_tolerant
    (rowCountQ : String → Except String (Option Nat))
    (describeQ : String → Except String (List (String × String)))
    (tableName : String) :
    ((∃ e, rowCountQ tableName = Except.error e) ∨
        (∃ e, describeQ tableName = Except.error e) →
      getTableInfo rowCountQ describeQ tableName = { row_count := 0, columns := [] }) ∧
    (∀ names : List String,
      (getAllTables (Except.ok names) rowCountQ describeQ).map Prod.fst = names ∧
      (getAllTables (Except.ok names) rowCountQ describeQ).length = names.length) := by
  constructor
  · rintro (⟨e, he⟩ | ⟨e, he⟩)
    · simp [getTableInfo, he]
    · cases hrc : rowCountQ tableName with
      | error e2 => simp [getTableInfo, hrc]
      | ok v => simp [getTableInfo, hrc, he]
  · intro names
    constructor
    · show ((names.map fun t => (t, getTableInfo rowCountQ describeQ t)).map Prod.fst) = names
      induction names with
      | nil => rfl
      | cons t ts ih => simpa using ih
    · simp [getAllTables]

/-- Witness for claim C8: a vanished table yields the degraded result and the
catalog read still lists every table. -/
theorem claim8_witness :
    getTableInfo rcGone descEmpty ("sales") = { row_count := 0, columns := [] } ∧
    (getAllTables (Except.ok [("sales"), ("t2")]) rcGone descEmpty).map Prod.fst =
      [("sales"), ("t2")] := by
  constructor
  · exact (claim8_introspection_tolerant rcGone descEmpty ("sales")).1
      (Or.inl ⟨("table vanished"), rfl⟩)
  · exact ((claim8_introspection_tolerant rcGone descEmpty ("sales")).2
      [("sales"), ("t2")]).1

/-- Claim C9 (confirmed): `load_csv_files` gives every input file exactly one
outcome — a loaded-table entry or an error string — keeps processing after
failures, and reports counts equal to the lengths of the two lists. -/
theorem claim9_loader_batch_independent
    (createQ : String → String → Except String Unit)
    (rowCountQ : String → Except String (Option Nat))
    (describeQ : String → Except String (List (String × String)))
    (csvFiles : List String) :
    (loadCsvFiles createQ rowCountQ describeQ csvFiles).loaded_tables =
        csvFiles.filterMap (fun f => (loadOne createQ rowCountQ describeQ f).toOption) ∧
    (loadCsvFiles createQ rowCountQ describeQ csvFiles).errors =
        csvFiles.filterMap (fun f =>
          match loadOne createQ rowCountQ describeQ f with
          | Except.ok _ => none
          | Except.error e => some ("Failed to load " ++ f ++ ": " ++ e)) ∧
    (loadCsvFiles createQ rowCountQ describeQ csvFiles).loaded_tables.length +
        (loadCsvFiles createQ rowCountQ describeQ csvFiles).errors.length =
      csvFiles.length ∧
    (loadCsvFiles createQ rowCountQ describeQ csvFiles).success_count =
        (loadCsvFiles createQ rowCountQ describeQ csvFiles).loaded_tables.length ∧
    (loadCsvFiles createQ rowCountQ describeQ csvFiles).error_count =
        (loadCsvFiles createQ rowCountQ describeQ csvFiles).errors.length := by
  refine ⟨?_, ?_, ?_, rfl, rfl⟩
  · simp [loadCsvFiles, loadCsvAux_spec]
  · simp [loadCsvFiles, loadCsvAux_spec]
  · simpa [loadCsvFiles] using loadCsvAux_length createQ rowCountQ describeQ csvFiles

/-- Claim C10 (confirmed): `validate_sql` is total at its interface — a parse
exception or a dry-run exception is converted into an invalid result carrying
a message; an invalid result always carries a message and a valid one none. -/
theorem claim10_validator_total (parse : String → Except String Nat)
    (enginePlan : String → Except String Unit) (sqlQuery : String) :
    (∀ e, parse sqlQuery = Except.error e →
      validateSqlGen parse enginePlan sqlQuery =
        (false, some ("Validation error: " ++ e))) ∧
    (∀ n e, parse sqlQuery = Except.ok n → ¬n = 0 →
      dangerousKeywords.find? (fun keyword => strContains (upperStr sqlQuery) keyword) =
        none →
      enginePlan ("EXPLAIN " ++ sqlQuery) = Except.error e →
      validateSqlGen parse enginePlan sqlQuery =
        (false, some ("SQL syntax error: " ++ e))) ∧
    ((validateSqlGen parse enginePlan sqlQuery).1 = false →
      (validateSqlGen parse enginePlan sqlQuery).2.isSome = true) ∧
    ((validateSqlGen parse enginePlan sqlQuery).1 = true →
      (validateSqlGen parse enginePlan sqlQuery).2 = none) := by
  refine ⟨?_, ?_, ?_, ?_⟩
  · intro e he
    simp [validateSqlGen, he]
  · intro n e hp hn hf hx
    simp [validateSqlGen, hp, hn, hf, hx]
  · cases hp : parse sqlQuery with
    | error e => simp [validateSqlGen, hp]
    | ok n =>
        by_cases hn : n = 0
        · simp [validateSqlGen, hp, hn]
        · cases hf : dangerousKeywords.find?
              (fun keyword => strContains (upperStr sqlQuery) keyword) with
          | some kw => simp [validateSqlGen, hp, hn, hf]
          | none =>
              cases hx : enginePlan ("EXPLAIN " ++ sqlQuery) with
              | ok u => simp [validateSqlGen, hp, hn, hf, hx]
              | error e => simp [validateSqlGen, hp, hn, hf, hx]
  · cases hp : parse sqlQuery with
    | error e => simp [validateSqlGen, hp]
    | ok n =>
        by_cases hn : n = 0
        · simp [validateSqlGen, hp, hn]
        · cases hf : dangerousKeywords.find?
              (fun keyword => strContains (upperStr sqlQuery) keyword) with
          | some kw => simp [validateSqlGen, hp, hn, hf]
          | none =>
              cases hx : enginePlan ("EXPLAIN " ++ sqlQuery) with
              | ok u => simp [validateSqlGen, hp, hn, hf, hx]
              | error e => simp [validateSqlGen, hp, hn, hf, hx]

/-- Witness for claim C10: a raising parse step is converted into an invalid
result with a validation-error message. -/
theorem claim10_witness :
    validateSqlGen parseBoom planAcceptAll ("SELECT 1") =
      (false, some ("Validation error: tokenizer crashed")) :=
  (claim10_validator_total parseBoom planAcceptAll ("SELECT 1")).1
    ("tokenizer crashed") rfl

end CsvSql
